/-
Verification of the videditor background job runner (apps/jobs) against its
natural-language specification.

The Python source is shallowly embedded: database rows become Lean structures,
SQL statements become pure functions on a list of rows, the worker's mutable
in-flight set becomes an explicit state-machine relation, and exceptions become
`Except`.  Opaque JSON blobs (job `result` dictionaries) are modelled as
strings, and wall-clock timestamps as natural numbers; neither abstraction is
load-bearing for any theorem below.  Python floats in the timestamp parser are
modelled as exact rationals; the parser's inputs there are short decimal
strings, so the rational value is the value the float code computes up to IEEE
rounding, far below the specification's one-microsecond tolerance.
-/

import Mathlib

namespace Videditor

/-! ## Data model (src/apps/jobs/models.py) -/

/-- `JobStatus` enumeration, models.py lines 39-46. -/
inductive JobStatus where
  | queued
  | running
  | succeeded
  | failed
  | canceled
deriving DecidableEq

/-- The closed set of known job types (`JobType` enumeration, models.py lines
29-36).  The `type` column is carried as a string on the row because the
unknown-type scenario feeds a string outside this enumeration through the
dispatch. -/
def knownJobTypes : List String :=
  ["thumbnail", "transcription", "analysis", "cutting", "delivery"]

/-- A row of the `processing_jobs` table (models.py lines 74-98).  The JSONB
`payload` is modelled as an association list of string fields (the only
accesses in the source are string-valued `payload.get(...)`), and the JSONB
`result` blob as an opaque string. -/
structure JobRow where
  id : String
  projectId : Option String := none
  shortId : Option String := none
  type : String
  status : JobStatus
  payload : List (String × String) := []
  result : Option String := none
  errorMessage : Option String := none
  startedAt : Option Nat := none
  completedAt : Option Nat := none
  createdAt : Nat := 0
  updatedAt : Nat := 0
deriving DecidableEq

/-- The database's `processing_jobs` table. -/
def JobDb := List JobRow

/-- `UPDATE processing_jobs ... WHERE id = jobId`: apply `f` to every row whose
primary key matches (`id` is the primary key, so at most one row in a
well-formed table). -/
def updateWhereId (db : List JobRow) (jobId : String) (f : JobRow → JobRow) :
    List JobRow :=
  db.map (fun j => if j.id = jobId then f j else j)

/-- `SELECT ... WHERE id = jobId LIMIT 1` followed by `scalar_one_or_none`
(processor.py lines 63-65). -/
def fetchById (db : List JobRow) (jobId : String) : Option JobRow :=
  db.find? (fun j => j.id = jobId)

/-! ## Worker claim query (src/apps/jobs/worker.py lines 41-86)

`poll_for_jobs` runs one transaction containing a single
`SELECT ... WHERE status = 'queued' ORDER BY created_at ASC LIMIT budget
FOR UPDATE SKIP LOCKED`.  The function body contains no `UPDATE` statement and
no `commit`; the session closes when the `async with` block ends, rolling the
transaction back and releasing the row locks.  The embedding therefore returns
the selected rows together with the table, which is returned unchanged. -/

/-- Insert a row into a list kept ascending by `created_at`. -/
def insertByCreated (j : JobRow) : List JobRow → List JobRow
  | [] => [j]
  | k :: ks =>
      if j.createdAt ≤ k.createdAt then j :: k :: ks else k :: insertByCreated j ks

/-- `ORDER BY created_at ASC` (worker.py line 60). -/
def sortByCreated (l : List JobRow) : List JobRow :=
  l.foldr insertByCreated []

/-- `JobWorker.poll_for_jobs` (worker.py lines 41-83), restricted to its
database interaction.  Given the current table and the worker's in-flight
count, it returns the list of rows handed to background tasks and the table
as the transaction leaves it.  Lines 43-49: skip when at capacity.  Lines
51-66: select up to `concurrency - activeCount` queued rows by ascending
`created_at`.  No statement in the function writes to the table. -/
def poll_for_jobs (db : List JobRow) (concurrency activeCount : Nat) :
    List JobRow × List JobRow :=
  if concurrency ≤ activeCount then ([], db)
  else
    ((sortByCreated (db.filter (fun j => j.status = JobStatus.queued))).take
        (concurrency - activeCount),
      db)

/-! ## Processor (src/apps/jobs/processor.py lines 46-133)

`process_job` re-fetches the row, returns early when it is absent or not
`running`, dispatches on `type` (the `else` branch raises
`ValueError(f"Unknown job type: {job.type}")`), and then writes the terminal
status.  The handler itself is abstracted to its outcome (`Except`: the raised
message or the result blob).  Because the processor's final `UPDATE`s carry no
status predicate in their `WHERE` clause, a write to the row made by another
transaction while the handler runs is overwritten; that interleaving is
modelled by the `externalWrite` argument, applied to the table between the
fetch and the terminal update. -/

/-- The success write, processor.py lines 105-115: set status `succeeded`,
`completed_at` and `updated_at` to now, store the result blob.  The `WHERE`
clause matches on `id` only. -/
def markSucceededRow (now : Nat) (res : String) (j : JobRow) : JobRow :=
  { j with
    status := JobStatus.succeeded
    completedAt := some now
    updatedAt := now
    result := some res }

/-- The failure write, processor.py lines 122-131: set status `failed`, store
the error message, set `updated_at` to now.  The source sets no
`completed_at` here.  The `WHERE` clause matches on `id` only. -/
def markFailedRow (now : Nat) (msg : String) (j : JobRow) : JobRow :=
  { j with
    status := JobStatus.failed
    errorMessage := some msg
    updatedAt := now }

/-- An interleaved status write from another transaction (e.g. an operator
canceling the job) landing between the processor's fetch and its terminal
update.  `none` means no concurrent writer. -/
def applyExternalWrite (db : List JobRow) (jobId : String) :
    Option JobStatus → List JobRow
  | none => db
  | some st => updateWhereId db jobId (fun j => { j with status := st })

/-- `JobProcessor.process_job` (processor.py lines 46-133).
`procActive` is the processor's in-memory duplicate guard (lines 53-57),
`handlerOutcome` the abstracted handler result for known job types, and
`now` the clock at the terminal write.  Returns the table after the call. -/
def process_job (procActive : List String) (db : List JobRow) (jobId : String)
    (handlerOutcome : Except String String) (externalWrite : Option JobStatus)
    (now : Nat) : List JobRow :=
  if jobId ∈ procActive then db
  else
    match fetchById db jobId with
    | none => db
    | some job =>
        if job.status ≠ JobStatus.running then db
        else
          let outcome : Except String String :=
            if job.type ∈ knownJobTypes then handlerOutcome
            else Except.error ("Unknown job type: " ++ job.type)
          let db1 := applyExternalWrite db jobId externalWrite
          match outcome with
          | Except.ok res => updateWhereId db1 jobId (markSucceededRow now res)
          | Except.error msg => updateWhereId db1 jobId (markFailedRow now msg)

/-! ## Worker in-flight bookkeeping (src/apps/jobs/worker.py)

The worker's `active_jobs` set and the poll/finish protocol around it
(worker.py lines 37, 43-83, 88-105) form a state machine.  The database query
is abstracted to the list of claimed ids: the `LIMIT jobs_to_fetch` clause
(line 61) bounds its length by `concurrency - |active_jobs|`, and that bound is
the only fact about the query the bookkeeping uses, so allowing an arbitrary
list of that length over-approximates the code's behaviours. -/

/-- The claim loop of `poll_for_jobs` (worker.py lines 76-83): for each claimed
job, skip it when already in `active_jobs`, otherwise add it. -/
def claimLoop (active : Finset String) (claimed : List String) : Finset String :=
  claimed.foldl (fun a j => if j ∈ a then a else insert j a) active

/-- One transition of the worker's in-flight set. -/
inductive WorkerStep (concurrency : Nat) : Finset String → Finset String → Prop
  /-- `poll_for_jobs` when below capacity (worker.py lines 51-83): the query's
  `LIMIT concurrency - |active|` bounds the claimed batch. -/
  | poll (a : Finset String) (claimed : List String)
      (hcap : a.card < concurrency)
      (hlen : claimed.length ≤ concurrency - a.card) :
      WorkerStep concurrency a (claimLoop a claimed)
  /-- `poll_for_jobs` when at capacity (worker.py lines 43-49): no change. -/
  | skip (a : Finset String) (h : concurrency ≤ a.card) :
      WorkerStep concurrency a a
  /-- `_process_job_wrapper`'s `finally` (worker.py lines 104-105): discard the
  job id on any outcome. -/
  | finish (a : Finset String) (jobId : String) :
      WorkerStep concurrency a (a.erase jobId)

/-- Worker states reachable from startup (`active_jobs = set()`, worker.py
line 37) by poll cycles and task completions. -/
inductive WorkerReach (concurrency : Nat) : Finset String → Prop
  | init : WorkerReach concurrency ∅
  | step {a b : Finset String} : WorkerReach concurrency a →
      WorkerStep concurrency a b → WorkerReach concurrency b

/-! ## Timestamp parser (src/apps/jobs/utils/ai.py lines 33-71)

`parse_timestamp` is embedded over `List Char`.  Python's `str.replace`,
membership test, `str.split` and tuple unpacking are modelled directly; the
built-in `int(...)` and `float("0." + ms)` conversions are modelled on their
actual inputs here, strings of decimal digits (Python additionally accepts
signs and surrounding whitespace, which no timestamp string contains).
`float` values are modelled as exact rationals. -/

/-- The decimal digit character for `d ≤ 9`, as produced by zero-padded
decimal rendering. -/
def decDigit (d : Nat) : Char := Char.ofNat (48 + d)

/-- Numeric value of a digit character. -/
def digitVal (c : Char) : Nat := c.toNat - 48

/-- Whether `c` is one of `'0'`-`'9'`. -/
def isDecDigit (c : Char) : Bool := decide ('0' ≤ c) && decide (c ≤ '9')

/-- Value of a string of decimal digits, most significant first. -/
def digitsToNat (l : List Char) : Nat :=
  l.foldl (fun a c => 10 * a + digitVal c) 0

/-- Python `int(s)` restricted to digit strings: errors on the empty string or
any non-digit character. -/
def pyInt (l : List Char) : Except String Nat :=
  if l ≠ [] ∧ l.all isDecDigit then Except.ok (digitsToNat l)
  else Except.error "invalid literal for int"

/-- Python `float("0." ++ ms)` restricted to digit strings `ms` (possibly
empty, as `float("0.")` is `0.0`), as an exact rational. -/
def pyFrac (l : List Char) : Except String ℚ :=
  if l.all isDecDigit then Except.ok ((digitsToNat l : ℚ) / 10 ^ l.length)
  else Except.error "could not convert string to float"

/-- Python `s.split(sep)` for a one-character separator. -/
def splitOnChar (sep : Char) : List Char → List (List Char)
  | [] => [[]]
  | c :: cs =>
      match splitOnChar sep cs with
      | [] => [[]]
      | g :: gs => if c = sep then [] :: g :: gs else (c :: g) :: gs

/-- `parse_timestamp` (utils/ai.py lines 33-71).  Line 48 replaces each comma
with a period.  Lines 51-55 branch on whether a period occurs and unpack the
split into exactly two parts (`split` yields one part exactly when no period
occurs; three or more parts make the tuple unpacking raise).  Lines 58-66
dispatch on the number of colon-separated fields, lines 61/64 convert them
with `int`, and line 69 adds the fractional part `float("0." ++ ms)`. -/
def parse_timestamp (ts0 : List Char) : Except String ℚ :=
  let ts := ts0.map (fun c => if c = ',' then '.' else c)
  let unpacked : Except String (List Char × List Char) :=
    match splitOnChar '.' ts with
    | [t] => Except.ok (t, ['0'])
    | [t, m] => Except.ok (t, m)
    | _ => Except.error "too many values to unpack"
  match unpacked with
  | Except.error e => Except.error e
  | Except.ok (timePart, msPart) =>
      let whole : Except String Nat :=
        match splitOnChar ':' timePart with
        | [hh, mm, ss] =>
            match pyInt hh, pyInt mm, pyInt ss with
            | Except.ok h, Except.ok m, Except.ok s =>
                Except.ok (h * 3600 + m * 60 + s)
            | _, _, _ => Except.error "invalid literal for int"
        | [mm, ss] =>
            match pyInt mm, pyInt ss with
            | Except.ok m, Except.ok s => Except.ok (m * 60 + s)
            | _, _ => Except.error "invalid literal for int"
        | _ => Except.error "Invalid timestamp format"
      match whole, pyFrac msPart with
      | Except.ok n, Except.ok f => Except.ok ((n : ℚ) + f)
      | Except.error e, _ => Except.error e
      | _, Except.error e => Except.error e

/-- Zero-padded two-digit decimal rendering of `n ≤ 99` (the `HH`, `MM`, `SS`
fields of the claimed timestamp format). -/
def pad2 (n : Nat) : List Char := [decDigit (n / 10), decDigit (n % 10)]

/-- Zero-padded three-digit decimal rendering of `n ≤ 999` (the `mmm` field). -/
def pad3 (n : Nat) : List Char :=
  [decDigit (n / 100), decDigit (n / 10 % 10), decDigit (n % 10)]

/-! ## Handler embeddings (src/apps/jobs/processor.py lines 135-716)

Each handler is embedded as a straight-line program producing an outcome, the
final temporary-file set, and a trace of its database and filesystem effects.
External collaborators (object store, ffmpeg, whisper, the text-generation
API) are abstracted to failure flags: the embedding only depends on whether a
call raises, never on the bytes it moves.  `mkstemp` randomness and `uuid4`
values are passed in as parameters. -/

/-- An observable effect of a handler: a database statement or a
temporary-file operation. -/
inductive Ev where
  | projUpdate (projectId : String) (newStatus : String)
  | insertTranscriptionRow (tid projectId : String)
  | insertShort (shortId : String) (status : String)
  | enqueue (projectId : Option String) (jobType : String) (status : JobStatus)
      (payload : List (String × String))
  | commit
  | fsCreate (path : String)
  | fsUnlink (path : String)
deriving DecidableEq

/-- Python `payload.get(key)` on the job's payload dictionary. -/
def pyGet (payload : List (String × String)) (key : String) : Option String :=
  (payload.find? (fun kv => kv.1 = key)).map (fun kv => kv.2)

/-- Python truthiness of an optional string: `None` and `""` are falsy. -/
def truthy : Option String → Bool
  | none => false
  | some s => s ≠ ""

/-- The cleanup step used in every handler's `finally` block (e.g.
processor.py lines 287-302): `if os.path.exists(p): os.unlink(p)`, with any
unlink error logged as a warning and swallowed (so on unlink failure the file
stays and nothing is re-raised). -/
def fsRemove (unlinkOk : String → Bool) (fs : List String) (path : String) :
    List String × List Ev :=
  if path ∈ fs then
    if unlinkOk path then (fs.erase path, [Ev.fsUnlink path])
    else (fs, [])
  else (fs, [])

/-- `tempfile.mkstemp(suffix, stem)`: the chosen path is the stem followed by
random characters and the suffix. -/
def mkstempPath (stem rand suffix : String) : String := stem ++ rand ++ suffix

/-- Temp-file stem for the thumbnail handler's video download,
processor.py line 179: `f"video-{job.id}-{uuid4()}-"` (also used by the
transcription handler, line 347). -/
def videoTempStem (jobId u : String) : String :=
  "video-" ++ jobId ++ "-" ++ u ++ "-"

/-- Temp-file stem for the extracted thumbnail, processor.py line 185. -/
def thumbnailTempStem (jobId u : String) : String :=
  "thumbnail-" ++ jobId ++ "-" ++ u ++ "-"

/-- Temp-file stem for the analysis handler's source video download,
processor.py line 523: `f"source-{job.id}-{uuid4()}-"`. -/
def sourceTempStem (jobId u : String) : String :=
  "source-" ++ jobId ++ "-" ++ u ++ "-"

/-- Temp-file stem for a per-suggestion clip, processor.py line 559:
`f"clip-{short_id}-"`.  The stem mentions the short's fresh id only, not the
job id. -/
def clipTempStem (shortId : String) : String := "clip-" ++ shortId ++ "-"

/-- Temp-file stem for a per-suggestion thumbnail, processor.py line 565:
`f"thumb-{short_id}-"`. -/
def clipThumbTempStem (shortId : String) : String := "thumb-" ++ shortId ++ "-"

/-- Outcome, final temp-file set, and effect trace of one handler call. -/
structure RunOut where
  outcome : Except String String
  fs : List String
  events : List Ev

/-- Which collaborator calls inside the thumbnail handler's `try` block raise. -/
structure ThumbFails where
  download : Bool := false
  duration : Bool := false
  extract : Bool := false
  upload : Bool := false
deriving DecidableEq

/-- `JobProcessor._handle_thumbnail` (processor.py lines 135-302).
Lines 148-157: validate `projectId` and the payload fields (Python truthiness,
so an empty string is as missing).  Lines 166-174: set the project to
`processing` and commit.  Lines 177-187: create the two temp files (before the
`try`).  Lines 189-283 (`try`): download, probe duration, extract and upload
the thumbnail, update the project to `ready` with thumbnail and duration and
commit, enqueue the `transcription` successor with
`{projectId, sourceObjectKey, sourceBucket}` (lines 268-277), commit, return.
Lines 285-302 (`finally`): remove both temp files, swallowing unlink errors. -/
def handle_thumbnail (jobId : String) (projectId : Option String)
    (payload : List (String × String)) (u1 r1 u2 r2 : String)
    (fails : ThumbFails) (unlinkOk : String → Bool) (fs : List String) :
    RunOut :=
  match projectId with
  | none => ⟨Except.error "Thumbnail job requires projectId", fs, []⟩
  | some p =>
      let sok := pyGet payload "sourceObjectKey"
      let sb := pyGet payload "sourceBucket"
      let uid := pyGet payload "userId"
      if ¬ (truthy sok ∧ truthy sb ∧ truthy uid) then
        ⟨Except.error
            "Thumbnail job requires sourceObjectKey, sourceBucket, and userId in payload",
          fs, []⟩
      else
        let k := sok.getD ""
        let b := sb.getD ""
        let vpath := mkstempPath (videoTempStem jobId u1) r1 ".mp4"
        let tpath := mkstempPath (thumbnailTempStem jobId u2) r2 ".jpg"
        let fs0 := fs ++ [vpath, tpath]
        let evPre : List Ev :=
          [Ev.projUpdate p "processing", Ev.commit, Ev.fsCreate vpath,
            Ev.fsCreate tpath]
        let body : Except String String × List Ev :=
          if fails.download then (Except.error "download failed", [])
          else if fails.duration then (Except.error "ffprobe failed", [])
          else if fails.extract then (Except.error "ffmpeg failed", [])
          else if fails.upload then (Except.error "upload failed", [])
          else
            (Except.ok "Thumbnail generated successfully",
              [Ev.projUpdate p "ready", Ev.commit,
                Ev.enqueue (some p) "transcription" JobStatus.queued
                  [("projectId", p), ("sourceObjectKey", k), ("sourceBucket", b)],
                Ev.commit])
        let c1 := fsRemove unlinkOk fs0 vpath
        let c2 := fsRemove unlinkOk c1.1 tpath
        ⟨body.1, c2.1, evPre ++ body.2 ++ c1.2 ++ c2.2⟩

/-- A `segments` entry of a transcription result (`WhisperSegment`,
models.py lines 158-163); `stop` models the Python field `end`, a reserved
word in Lean. -/
structure WhisperSeg where
  start : ℚ
  stop : ℚ
  text : String
deriving DecidableEq

/-- A row of the `transcriptions` table (models.py lines 123-135). -/
structure TranscriptionRow where
  id : String
  project_id : String
  text : String
  segments : List WhisperSeg
  language : String
  duration_seconds : Option ℚ
deriving DecidableEq

/-- The `Transcription` row exactly as the transcription handler constructs it
(processor.py lines 380-387): every keyword is forwarded from the
transcription result except `duration_seconds`, which is the literal `None`. -/
def transcription_insert_row (tid projectId text : String)
    (segments : List WhisperSeg) (language : String) : TranscriptionRow :=
  { id := tid
    project_id := projectId
    text := text
    segments := segments
    language := language
    duration_seconds := none }

/-- Which collaborator calls inside the transcription handler's `try` block
raise. -/
structure TransFails where
  download : Bool := false
  transcribe : Bool := false
deriving DecidableEq

/-- `JobProcessor._handle_transcription` (processor.py lines 304-439).
Lines 317-325: validate `projectId` and the payload fields.  Lines 334-342:
set the project to `transcribing`, commit.  Lines 345-349: create the temp
file.  Lines 351-421 (`try`): download, transcribe, insert the Transcription
row (lines 380-388), set the project to `completed`, commit, enqueue the
`analysis` successor with `{projectId}` (lines 407-412), commit, return.
Lines 423-439 (`finally`): remove the temp file, swallowing unlink errors. -/
def handle_transcription (jobId : String) (projectId : Option String)
    (payload : List (String × String)) (u r tid : String)
    (fails : TransFails) (unlinkOk : String → Bool) (fs : List String) :
    RunOut :=
  match projectId with
  | none => ⟨Except.error "Transcription job requires projectId", fs, []⟩
  | some p =>
      let sok := pyGet payload "sourceObjectKey"
      let sb := pyGet payload "sourceBucket"
      if ¬ (truthy sok ∧ truthy sb) then
        ⟨Except.error
            "Transcription job requires sourceObjectKey and sourceBucket in payload",
          fs, []⟩
      else
        let vpath := mkstempPath (videoTempStem jobId u) r ".mp4"
        let fs0 := fs ++ [vpath]
        let body : Except String String × List Ev :=
          if fails.download then (Except.error "download failed", [])
          else if fails.transcribe then (Except.error "transcription failed", [])
          else
            (Except.ok "Transcription completed",
              [Ev.insertTranscriptionRow tid p, Ev.projUpdate p "completed",
                Ev.commit,
                Ev.enqueue (some p) "analysis" JobStatus.queued [("projectId", p)],
                Ev.commit])
        let c1 := fsRemove unlinkOk fs0 vpath
        ⟨body.1, c1.1,
          [Ev.projUpdate p "transcribing", Ev.commit, Ev.fsCreate vpath] ++
            body.2 ++ c1.2⟩

/-! ### Analysis handler and the Short constructor

`models.py` lines 138-154 map the `Short` class with attributes `id`,
`project_id`, `transcription_slice`, `start_time`, `end_time`,
`output_object_key`, `thumbnail_url`, `status`, `error_message`, `metadata_`,
`created_at`, `updated_at`.  SQLAlchemy's declarative constructor walks the
keyword arguments in order and raises
`TypeError("%r is an invalid keyword argument for %s")` at the first keyword
that is not an attribute of the class.  The processor calls `Short(...)` with
keywords `title` and `description` (processor.py lines 622-632 on the success
path, lines 657-666 on the per-clip error path), neither of which the mapped
class defines. -/

/-- The attribute names of the mapped `Short` class (models.py lines
138-154). -/
def shortMappedAttrs : List String :=
  ["id", "project_id", "transcription_slice", "start_time", "end_time",
    "output_object_key", "thumbnail_url", "status", "error_message",
    "metadata_", "created_at", "updated_at"]

/-- The message of the `TypeError` SQLAlchemy's declarative constructor
raises for an unknown keyword. -/
def invalidKwMsg (k : String) : String :=
  "'" ++ k ++ "' is an invalid keyword argument for Short"

/-- The keyword check of the declarative constructor: accept the keywords in
order, raising at the first one that is not an attribute of `Short`. -/
def checkShortKwargs : List String → Except String Unit
  | [] => Except.ok ()
  | k :: ks =>
      if k ∈ shortMappedAttrs then checkShortKwargs ks
      else Except.error (invalidKwMsg k)

/-- Keywords of the success-path `Short(...)` call, processor.py lines
622-632, in source order. -/
def shortKwargKeysOk : List String :=
  ["id", "project_id", "title", "description", "start_time", "end_time",
    "output_object_key", "thumbnail_url", "status"]

/-- Keywords of the per-clip error-path `Short(...)` call, processor.py lines
657-666, in source order. -/
def shortKwargKeysErr : List String :=
  ["id", "project_id", "title", "description", "start_time", "end_time",
    "status", "error_message"]

/-- One iteration of the analysis handler's per-suggestion loop
(processor.py lines 544-681) for the short id `shortId`.  Lines 557-567:
create the clip and thumbnail temp files (before the inner `try`).
Lines 569-648 (`try`): extract the clip and its thumbnail and upload both
(abstracted to the flag `clipFails`), then construct the `completed` Short —
whose constructor checks its keywords — and commit it.  Lines 650-668
(`except`): on any failure in the `try`, construct the `error` Short — whose
constructor checks its keywords in turn, and whose own raise propagates out of
the `except` block.  Lines 670-681 (`finally`): remove both temp files,
swallowing unlink errors.  The outcome distinguishes a short appended to
`shorts_created` (`ok true`), an isolated per-clip failure (`ok false`), and a
propagating exception (`error`). -/
def processClip (shortId r1 r2 : String) (clipFails : Bool)
    (unlinkOk : String → Bool) (fs : List String) :
    Except String Bool × List String × List Ev :=
  let cpath := mkstempPath (clipTempStem shortId) r1 ".mp4"
  let tpath := mkstempPath (clipThumbTempStem shortId) r2 ".jpg"
  let fs0 := fs ++ [cpath, tpath]
  let tryOutcome : Except String Bool × List Ev :=
    if clipFails then (Except.error "clip extraction failed", [])
    else
      match checkShortKwargs shortKwargKeysOk with
      | Except.ok _ =>
          (Except.ok true, [Ev.insertShort shortId "completed", Ev.commit])
      | Except.error e => (Except.error e, [])
  let afterExcept : Except String Bool × List Ev :=
    match tryOutcome.1 with
    | Except.ok b => (Except.ok b, tryOutcome.2)
    | Except.error _ =>
        match checkShortKwargs shortKwargKeysErr with
        | Except.ok _ =>
            (Except.ok false,
              tryOutcome.2 ++ [Ev.insertShort shortId "error", Ev.commit])
        | Except.error e2 => (Except.error e2, tryOutcome.2)
  let c1 := fsRemove unlinkOk fs0 cpath
  let c2 := fsRemove unlinkOk c1.1 tpath
  (afterExcept.1, c2.1,
    [Ev.fsCreate cpath, Ev.fsCreate tpath] ++ afterExcept.2 ++ c1.2 ++ c2.2)

/-- The `for idx, suggestion in enumerate(suggestions)` loop (processor.py
line 544): each element of `clips` carries the fresh short id and the two
`mkstemp` random parts for one suggestion; `clipFails idx` states whether the
clip extraction for suggestion `idx` raises.  An exception propagating out of
one iteration aborts the loop.  Returns the ids appended to
`shorts_created`. -/
def clipLoop (clipFails : Nat → Bool) (unlinkOk : String → Bool) :
    Nat → List (String × String × String) → List String →
    Except String (List String) × List String × List Ev
  | _, [], fs => (Except.ok [], fs, [])
  | idx, (sid, r1, r2) :: rest, fs =>
      let step := processClip sid r1 r2 (clipFails idx) unlinkOk fs
      match step.1 with
      | Except.error e => (Except.error e, step.2.1, step.2.2)
      | Except.ok appended =>
          let restRun := clipLoop clipFails unlinkOk (idx + 1) rest step.2.1
          (restRun.1.map (fun l => if appended then sid :: l else l),
            restRun.2.1, step.2.2 ++ restRun.2.2)

/-- Outcome of the analysis handler: on success, the ids appended to
`shorts_created` (the result blob reports `shortsCreated` as the length of
that list, processor.py lines 694-698). -/
structure AnalysisOut where
  outcome : Except String (List String)
  fs : List String
  events : List Ev

/-- `JobProcessor._handle_analysis` (processor.py lines 441-716).
Lines 454-455: validate `projectId`.  Lines 469-477: set the project to
`analyzing`, commit.  Lines 480-498: the project must exist and its
transcription must exist with at least one segment.  Lines 507-512: the
text-generation call, abstracted to the supplied suggestion list (`clips`).
Lines 521-525: create the source temp file.  Lines 529-698 (`try`): download
the source (`downloadFails`), run the per-suggestion loop, set the project to
`completed`, commit, return `shorts_created`.  Lines 700-716 (`finally`):
remove the source temp file, swallowing unlink errors. -/
def handle_analysis (jobId : String) (projectId : Option String)
    (hasProject hasTranscription : Bool) (numSegments : Nat)
    (clips : List (String × String × String)) (clipFails : Nat → Bool)
    (u r : String) (downloadFails : Bool) (unlinkOk : String → Bool)
    (fs : List String) : AnalysisOut :=
  match projectId with
  | none => ⟨Except.error "Analysis job requires projectId", fs, []⟩
  | some p =>
      let ev0 : List Ev := [Ev.projUpdate p "analyzing", Ev.commit]
      if ¬ hasProject then
        ⟨Except.error ("Project not found: " ++ p), fs, ev0⟩
      else if ¬ hasTranscription then
        ⟨Except.error ("No transcription found for project: " ++ p), fs, ev0⟩
      else if numSegments = 0 then
        ⟨Except.error "Transcription has no segments", fs, ev0⟩
      else
        let spath := mkstempPath (sourceTempStem jobId u) r ".mp4"
        let fs0 := fs ++ [spath]
        let run : Except String (List String) × List String × List Ev :=
          if downloadFails then (Except.error "download failed", fs0, [])
          else
            let lr := clipLoop clipFails unlinkOk 0 clips fs0
            match lr.1 with
            | Except.error e => (Except.error e, lr.2.1, lr.2.2)
            | Except.ok created =>
                (Except.ok created, lr.2.1,
                  lr.2.2 ++ [Ev.projUpdate p "completed", Ev.commit])
        let c1 := fsRemove unlinkOk run.2.1 spath
        ⟨run.1, c1.1, ev0 ++ [Ev.fsCreate spath] ++ run.2.2 ++ c1.2⟩

/-! ## Helper predicates used by the theorems -/

/-- Recognizes an enqueue (successor-job insert) event. -/
def isEnqueueEv : Ev → Bool
  | Ev.enqueue _ _ _ _ => true
  | _ => false

/-- Recognizes a Short-row insert event. -/
def isInsertShortEv : Ev → Bool
  | Ev.insertShort _ _ => true
  | _ => false

/-- Whether `needle` occurs as a contiguous substring of `hay`. -/
def strContains (hay needle : List Char) : Bool :=
  (List.range (hay.length + 1)).any
    (fun i => ((hay.drop i).take needle.length) == needle)

/-- The per-suggestion temporary paths (clip and thumbnail) of an analysis
run. -/
def clipTempPathsList : List (String × String × String) → List String
  | [] => []
  | (sid, r1, r2) :: rest =>
      mkstempPath (clipTempStem sid) r1 ".mp4" ::
        mkstempPath (clipThumbTempStem sid) r2 ".jpg" ::
          clipTempPathsList rest

/-- All temporary paths one analysis run can create: the source download and,
per suggestion, the clip and its thumbnail. -/
def analysisTempPaths (jobId u r : String)
    (clips : List (String × String × String)) : List String :=
  mkstempPath (sourceTempStem jobId u) r ".mp4" :: clipTempPathsList clips

/-! ## Helper lemmas -/

theorem claimLoop_card_le (claimed : List String) :
    ∀ active : Finset String,
      (claimLoop active claimed).card ≤ active.card + claimed.length := by
  induction claimed with
  | nil => intro a; simp [claimLoop]
  | cons j js ih =>
      intro a
      by_cases hj : j ∈ a
      · have h2 := ih a
        simp only [claimLoop, List.foldl_cons, hj, if_true] at h2 ⊢
        simpa using Nat.le_trans h2 (by omega)
      · have h1 : (insert j a).card ≤ a.card + 1 := Finset.card_insert_le j a
        have h2 := ih (insert j a)
        simp only [claimLoop] at h2
        simp only [claimLoop, List.foldl_cons, hj, if_false, List.length_cons]
        omega

theorem fsRemove_one_fresh (fs : List String) (p : String) (hp : p ∉ fs) :
    fsRemove (fun _ => true) (fs ++ [p]) p = (fs, [Ev.fsUnlink p]) := by
  simp [fsRemove, List.erase_append_right _ hp]

theorem fsRemove_two_fresh (fs : List String) (v t : String) (hv : v ∉ fs)
    (ht : t ∉ fs) :
    (fsRemove (fun _ => true)
        ((fsRemove (fun _ => true) (fs ++ [v, t]) v).1) t).1 = fs := by
  have h1 : (fs ++ [v, t]).erase v = fs ++ [t] := by
    rw [List.erase_append_right _ hv]
    simp
  have h2 : (fs ++ [t]).erase t = fs := by
    rw [List.erase_append_right _ ht]
    simp
  simp [fsRemove, h1, h2]

theorem decDigit_ne_colon {d : Nat} (h : d ≤ 9) : decDigit d ≠ ':' := by
  interval_cases d <;> decide

theorem decDigit_ne_comma {d : Nat} (h : d ≤ 9) : decDigit d ≠ ',' := by
  interval_cases d <;> decide

theorem decDigit_ne_dot {d : Nat} (h : d ≤ 9) : decDigit d ≠ '.' := by
  interval_cases d <;> decide

theorem isDecDigit_decDigit {d : Nat} (h : d ≤ 9) : isDecDigit (decDigit d) = true := by
  interval_cases d <;> decide

theorem digitVal_decDigit {d : Nat} (h : d ≤ 9) : digitVal (decDigit d) = d := by
  interval_cases d <;> decide

theorem parse_hms_digits (a b c d e f g i j : Nat) (sep : Char)
    (ha : a ≤ 9) (hb : b ≤ 9) (hc : c ≤ 9) (hd : d ≤ 9) (he : e ≤ 9)
    (hf : f ≤ 9) (hg : g ≤ 9) (hi : i ≤ 9) (hj : j ≤ 9)
    (hsep : sep = ',' ∨ sep = '.') :
    parse_timestamp
        [decDigit a, decDigit b, ':', decDigit c, decDigit d, ':', decDigit e,
          decDigit f, sep, decDigit g, decDigit i, decDigit j] =
      Except.ok
        ((((10 * a + b) * 3600 + (10 * c + d) * 60 + (10 * e + f) : ℕ) : ℚ) +
          ((100 * g + 10 * i + j : ℕ) : ℚ) / 1000) := by
  rcases hsep with hsep | hsep <;> subst hsep <;>
    · simp [parse_timestamp, splitOnChar, pyInt, pyFrac, digitsToNat,
        decDigit_ne_comma ha, decDigit_ne_comma hb, decDigit_ne_comma hc,
        decDigit_ne_comma hd, decDigit_ne_comma he, decDigit_ne_comma hf,
        decDigit_ne_comma hg, decDigit_ne_comma hi, decDigit_ne_comma hj,
        decDigit_ne_dot ha, decDigit_ne_dot hb, decDigit_ne_dot hc,
        decDigit_ne_dot hd, decDigit_ne_dot he, decDigit_ne_dot hf,
        decDigit_ne_dot hg, decDigit_ne_dot hi, decDigit_ne_dot hj,
        decDigit_ne_colon ha, decDigit_ne_colon hb, decDigit_ne_colon hc,
        decDigit_ne_colon hd, decDigit_ne_colon he, decDigit_ne_colon hf,
        isDecDigit_decDigit ha, isDecDigit_decDigit hb, isDecDigit_decDigit hc,
        isDecDigit_decDigit hd, isDecDigit_decDigit he, isDecDigit_decDigit hf,
        isDecDigit_decDigit hg, isDecDigit_decDigit hi, isDecDigit_decDigit hj,
        digitVal_decDigit ha, digitVal_decDigit hb, digitVal_decDigit hc,
        digitVal_decDigit hd, digitVal_decDigit he, digitVal_decDigit hf,
        digitVal_decDigit hg, digitVal_decDigit hi, digitVal_decDigit hj]
      <;> ring_nf

theorem parse_ms_digits (c d e f g i j : Nat) (sep : Char)
    (hc : c ≤ 9) (hd : d ≤ 9) (he : e ≤ 9) (hf : f ≤ 9) (hg : g ≤ 9)
    (hi : i ≤ 9) (hj : j ≤ 9) (hsep : sep = ',' ∨ sep = '.') :
    parse_timestamp
        [decDigit c, decDigit d, ':', decDigit e, decDigit f, sep, decDigit g,
          decDigit i, decDigit j] =
      Except.ok
        ((((10 * c + d) * 60 + (10 * e + f) : ℕ) : ℚ) +
          ((100 * g + 10 * i + j : ℕ) : ℚ) / 1000) := by
  rcases hsep with hsep | hsep <;> subst hsep <;>
    · simp [parse_timestamp, splitOnChar, pyInt, pyFrac, digitsToNat,
        decDigit_ne_comma hc, decDigit_ne_comma hd, decDigit_ne_comma he,
        decDigit_ne_comma hf, decDigit_ne_comma hg, decDigit_ne_comma hi,
        decDigit_ne_comma hj,
        decDigit_ne_dot hc, decDigit_ne_dot hd, decDigit_ne_dot he,
        decDigit_ne_dot hf, decDigit_ne_dot hg, decDigit_ne_dot hi,
        decDigit_ne_dot hj,
        decDigit_ne_colon hc, decDigit_ne_colon hd, decDigit_ne_colon he,
        decDigit_ne_colon hf,
        isDecDigit_decDigit hc, isDecDigit_decDigit hd, isDecDigit_decDigit he,
        isDecDigit_decDigit hf, isDecDigit_decDigit hg, isDecDigit_decDigit hi,
        isDecDigit_decDigit hj,
        digitVal_decDigit hc, digitVal_decDigit hd, digitVal_decDigit he,
        digitVal_decDigit hf, digitVal_decDigit hg, digitVal_decDigit hi,
        digitVal_decDigit hj]
      <;> ring_nf

/-! ## Claim theorems -/

/-- C1: the claim says each poll claims queued rows inside a transaction that
also updates them to `running` with `started_at` set and commits, so that rows
handed to the Processor have status `running`.  The code does not: this
theorem evaluates the embedding of worker.py lines 41-83 and processor.py
lines 46-133 on a table holding one queued job and shows that the poll hands
the row to a background task while leaving the table unchanged — the row is
still `queued` with `started_at` unset — whereupon `process_job`'s
not-running guard makes the whole call a no-op.  The job is claimed but never
transitioned, contradicting the claim (and the comment at processor.py
line 62). -/
theorem claim1_eval :
    (poll_for_jobs [{ id := "J1", type := "delivery", status := JobStatus.queued }] 1 0).1 =
      [{ id := "J1", type := "delivery", status := JobStatus.queued }] ∧
    (poll_for_jobs [{ id := "J1", type := "delivery", status := JobStatus.queued }] 1 0).2 =
      [{ id := "J1", type := "delivery", status := JobStatus.queued }] ∧
    (JobRow.status { id := "J1", type := "delivery", status := JobStatus.queued }) =
      JobStatus.queued ∧
    (JobRow.startedAt { id := "J1", type := "delivery", status := JobStatus.queued }) = none ∧
    process_job [] [{ id := "J1", type := "delivery", status := JobStatus.queued }] "J1"
        (Except.ok "done") none 5 =
      [{ id := "J1", type := "delivery", status := JobStatus.queued }] :=
  ⟨rfl, rfl, rfl, rfl, rfl⟩

/-- C2: the claim states that whenever the job's status is not `running` at
the moment the success or failure transition executes, the row is left
unchanged.  Counterexample: a job that is `running` at the processor's fetch
but has been transitioned to the terminal status `canceled` by the time the
success write executes (the interleaving §7 of the spec itself describes) is
overwritten to `succeeded`, because the update at processor.py lines 105-114
matches on `id` alone with no status precondition — so a row does transition
out of a terminal status. -/
theorem claim2_cex :
    applyExternalWrite [{ id := "J2", type := "delivery", status := JobStatus.running }] "J2"
        (some JobStatus.canceled) =
      [{ id := "J2", type := "delivery", status := JobStatus.canceled }] ∧
    process_job [] [{ id := "J2", type := "delivery", status := JobStatus.running }] "J2"
        (Except.ok "done") (some JobStatus.canceled) 7 =
      [{ id := "J2"
         type := "delivery"
         status := JobStatus.succeeded
         completedAt := some 7
         updatedAt := 7
         result := some "done" }] :=
  ⟨rfl, rfl⟩

/-- C2 (amended): the stale-transition guard exists only at fetch time: if the
job's status is not `running` when `process_job` re-reads the row
(processor.py line 71) — in particular for any job already in a terminal
status — the call writes nothing and the table is unchanged.  The terminal
updates themselves carry no status precondition, so only a status change made
after the fetch (e.g. a concurrent cancellation) can be overwritten. -/
theorem claim2_amended (procActive : List String) (db : List JobRow)
    (jobId : String) (outcome : Except String String)
    (externalWrite : Option JobStatus) (now : Nat) (j : JobRow)
    (hfetch : fetchById db jobId = some j)
    (hstat : j.status ≠ JobStatus.running) :
    process_job procActive db jobId outcome externalWrite now = db := by
  by_cases hmem : jobId ∈ procActive
  · simp [process_job, hmem]
  · simp [process_job, hmem, hfetch, hstat]

/-- C2 (witness): the amended no-op theorem applied to a concrete canceled
job. -/
theorem claim2_amended_wit :
    process_job []
        [{ id := "JW", type := "delivery", status := JobStatus.canceled }] "JW"
        (Except.ok "r") none 3 =
      [{ id := "JW", type := "delivery", status := JobStatus.canceled }] :=
  claim2_amended [] _ "JW" (Except.ok "r") none 3
    { id := "JW", type := "delivery", status := JobStatus.canceled } rfl
    (by decide)

/-- C4: the claim states that the failure transition sets `completed_at` to
now, so that every terminal job has `completed_at` set.  Counterexample: a
running job whose handler fails ends in the terminal status `failed` with
`completed_at` still `NULL`, because the update at processor.py lines 122-130
sets only `status`, `error_message` and `updated_at`. -/
theorem claim4_cex :
    process_job [] [{ id := "J4", type := "delivery", status := JobStatus.running }] "J4"
        (Except.error "boom") none 9 =
      [{ id := "J4"
         type := "delivery"
         status := JobStatus.failed
         errorMessage := some "boom"
         updatedAt := 9 }] ∧
    (JobRow.completedAt
        { id := "J4"
          type := "delivery"
          status := JobStatus.failed
          errorMessage := some "boom"
          updatedAt := 9 }) = none :=
  ⟨rfl, rfl⟩

/-- C4 (amended): for every handler failure on a running job, the processor
updates the job in a fresh transaction independent of the handler's
rolled-back work, setting status to `failed`, `error_message` to the error
text and `updated_at` to now; `completed_at` is NOT set, so it keeps whatever
value the row had before (for a job claimed from `queued`, `NULL`). -/
theorem claim4_amended (procActive : List String) (db : List JobRow)
    (jobId msg : String) (now : Nat) (j : JobRow)
    (hmem : jobId ∉ procActive)
    (hfetch : fetchById db jobId = some j)
    (hrun : j.status = JobStatus.running)
    (hknown : j.type ∈ knownJobTypes) :
    process_job procActive db jobId (Except.error msg) none now =
      updateWhereId db jobId (markFailedRow now msg) ∧
    (markFailedRow now msg j).status = JobStatus.failed ∧
    (markFailedRow now msg j).errorMessage = some msg ∧
    (markFailedRow now msg j).updatedAt = now ∧
    (markFailedRow now msg j).completedAt = j.completedAt := by
  refine ⟨?_, rfl, rfl, rfl, rfl⟩
  simp [process_job, hmem, hfetch, hrun, hknown, applyExternalWrite]

/-- C4 (witness): the amended failure-write theorem applied to a concrete
running job. -/
theorem claim4_amended_wit :
    process_job []
        [{ id := "J4b", type := "delivery", status := JobStatus.running }] "J4b"
        (Except.error "oops") none 2 =
      updateWhereId
        [{ id := "J4b", type := "delivery", status := JobStatus.running }] "J4b"
        (markFailedRow 2 "oops") ∧
    (markFailedRow 2 "oops"
        { id := "J4b", type := "delivery", status := JobStatus.running }).status =
      JobStatus.failed ∧
    (markFailedRow 2 "oops"
        { id := "J4b", type := "delivery", status := JobStatus.running }).errorMessage =
      some "oops" ∧
    (markFailedRow 2 "oops"
        { id := "J4b", type := "delivery", status := JobStatus.running }).updatedAt = 2 ∧
    (markFailedRow 2 "oops"
        { id := "J4b", type := "delivery", status := JobStatus.running }).completedAt =
      (JobRow.completedAt { id := "J4b", type := "delivery", status := JobStatus.running }) :=
  claim4_amended [] _ "J4b" "oops" 2
    { id := "J4b", type := "delivery", status := JobStatus.running }
    (by decide) rfl rfl (by decide)

/-- C7: the claim states the unknown-type failure carries the error message
"unknown job type".  Counterexample: processing a running job of type
`unknown` marks it `failed` with the message `"Unknown job type: unknown"`
(the `ValueError` text of processor.py line 102), which is not the claimed
string. -/
theorem claim7_cex :
    process_job [] [{ id := "JU", type := "unknown", status := JobStatus.running }] "JU"
        (Except.ok "ignored") none 4 =
      [{ id := "JU"
         type := "unknown"
         status := JobStatus.failed
         errorMessage := some "Unknown job type: unknown"
         updatedAt := 4 }] ∧
    ("Unknown job type: unknown" : String) ≠ "unknown job type" :=
  ⟨rfl, by decide⟩

/-- C7 (amended): processing a running job whose type is outside the closed
enumeration transitions that job to `failed` with error message
`"Unknown job type: " ++ type`; the exception is caught inside `process_job`,
other rows are untouched, and a subsequent job is still processed normally. -/
theorem claim7_amended (j j2 : JobRow) (now now2 : Nat) (res res2 : String)
    (h1 : j.status = JobStatus.running) (h2 : j.type ∉ knownJobTypes)
    (h3 : j2.status = JobStatus.running) (h4 : j2.type ∈ knownJobTypes)
    (hids : j2.id ≠ j.id) :
    fetchById (process_job [] [j, j2] j.id (Except.ok res) none now) j.id =
      some { j with
        status := JobStatus.failed
        errorMessage := some ("Unknown job type: " ++ j.type)
        updatedAt := now } ∧
    fetchById (process_job [] [j, j2] j.id (Except.ok res) none now) j2.id =
      some j2 ∧
    fetchById
        (process_job [] (process_job [] [j, j2] j.id (Except.ok res) none now)
          j2.id (Except.ok res2) none now2) j2.id =
      some { j2 with
        status := JobStatus.succeeded
        completedAt := some now2
        updatedAt := now2
        result := some res2 } := by
  refine ⟨?_, ?_, ?_⟩ <;>
    simp [process_job, fetchById, updateWhereId, markFailedRow,
      markSucceededRow, applyExternalWrite, h1, h2, h3, h4, hids, Ne.symm hids]

/-- C7 (amended, witness): the unknown-type job `A` fails with the real
message while the `delivery` job `B` is processed to success afterwards. -/
theorem claim7_amended_wit :
    fetchById
        (process_job []
          [{ id := "A", type := "weird", status := JobStatus.running },
            { id := "B", type := "delivery", status := JobStatus.running }] "A"
          (Except.ok "r1") none 11) "A" =
      some { id := "A"
             type := "weird"
             status := JobStatus.failed
             errorMessage := some ("Unknown job type: " ++ "weird")
             updatedAt := 11 } ∧
    fetchById
        (process_job []
          [{ id := "A", type := "weird", status := JobStatus.running },
            { id := "B", type := "delivery", status := JobStatus.running }] "A"
          (Except.ok "r1") none 11) "B" =
      some { id := "B", type := "delivery", status := JobStatus.running } ∧
    fetchById
        (process_job []
          (process_job []
            [{ id := "A", type := "weird", status := JobStatus.running },
              { id := "B", type := "delivery", status := JobStatus.running }] "A"
            (Except.ok "r1") none 11) "B" (Except.ok "r2") none 12) "B" =
      some { id := "B"
             type := "delivery"
             status := JobStatus.succeeded
             completedAt := some 12
             updatedAt := 12
             result := some "r2" } :=
  claim7_amended
    { id := "A", type := "weird", status := JobStatus.running }
    { id := "B", type := "delivery", status := JobStatus.running }
    11 12 "r1" "r2" rfl (by decide) rfl (by decide) (by decide)

/-- C3: in every reachable worker state the in-flight set respects the
concurrency bound: a poll either skips at capacity or claims at most
`concurrency - |active_jobs|` jobs (the query's LIMIT, worker.py line 61),
each claimed id is added at most once, and task completion only removes ids —
so `|active_jobs| ≤ concurrency` is an invariant. -/
theorem claim3_bound (c : Nat) (a : Finset String) (h : WorkerReach c a) :
    a.card ≤ c := by
  induction h with
  | init => simp
  | step hr hs ih =>
      rename_i s t
      cases hs with
      | poll claimed hcap hlen =>
          have hc := claimLoop_card_le claimed s
          omega
      | skip hge => exact ih
      | finish jobId => exact Nat.le_trans Finset.card_erase_le ih

/-- C3 (witness): the bound applied to a concrete reachable state: from the
empty set, one poll with budget 2 claiming ids `a` and `b`. -/
theorem claim3_bound_wit : (claimLoop ∅ ["a", "b"]).card ≤ 2 :=
  claim3_bound 2 (claimLoop ∅ ["a", "b"])
    (WorkerReach.step WorkerReach.init
      (WorkerStep.poll ∅ ["a", "b"] (by simp) (by simp)))

/-- C10: every Transcription row the transcription handler inserts is
constructed (processor.py lines 380-387) with `duration_seconds=None`, even
though the data model carries the field, so the handler never populates a
transcription's duration. -/
theorem claim10_duration_none (tid projectId text : String)
    (segments : List WhisperSeg) (language : String) :
    (transcription_insert_row tid projectId text segments language).duration_seconds =
      none :=
  rfl

/-- C5: the claim says an analysis job with 3 suggestions and a clip-extract
failure on exactly one of them succeeds with `shortsCreated = 3`, one `error`
Short and two `completed` Shorts.  The code cannot do this: evaluating the
embedding of `_handle_analysis` on exactly that input shows the job fails
with the `TypeError` message of the Short constructor (the processor passes
keywords `title`/`description` that the mapped `Short` class does not define,
processor.py lines 622-632 and 657-666 against models.py lines 138-154), and
no Short row is written at all. -/
theorem claim5_eval :
    (handle_analysis "J5" (some "P5") true true 5
        [("S1", "a1", "b1"), ("S2", "a2", "b2"), ("S3", "a3", "b3")]
        (fun i => i == 1) "u" "r" false (fun _ => true) []).outcome =
      Except.error "'title' is an invalid keyword argument for Short" ∧
    ((handle_analysis "J5" (some "P5") true true 5
        [("S1", "a1", "b1"), ("S2", "a2", "b2"), ("S3", "a3", "b3")]
        (fun i => i == 1) "u" "r" false (fun _ => true) []).events.filter
      isInsertShortEv) = [] ∧
    (handle_analysis "J5" (some "P5") true true 5
        [("S1", "a1", "b1"), ("S2", "a2", "b2"), ("S3", "a3", "b3")]
        (fun i => i == 1) "u" "r" false (fun _ => true) []).fs = [] :=
  ⟨rfl, rfl, rfl⟩

/-- C6: every successful thumbnail handler run enqueues exactly one
`transcription` job, `queued`, for the same project, with payload keys
`projectId`, `sourceObjectKey`, `sourceBucket`, and only after the commit of
the project update; every successful transcription handler run enqueues
exactly one `analysis` job after the Transcription insert and project update
are committed.  The full effect traces make the ordering explicit: in each
the unique enqueue event sits after the commit that follows the derived-row
writes. -/
theorem claim6_chaining (jobId p k b uid u1 r1 u2 r2 u3 r3 tid : String)
    (hk : k ≠ "") (hb : b ≠ "") (huid : uid ≠ "") :
    (handle_thumbnail jobId (some p)
        [("sourceObjectKey", k), ("sourceBucket", b), ("userId", uid)]
        u1 r1 u2 r2 ⟨false, false, false, false⟩ (fun _ => true) []).events =
      [Ev.projUpdate p "processing", Ev.commit,
        Ev.fsCreate (mkstempPath (videoTempStem jobId u1) r1 ".mp4"),
        Ev.fsCreate (mkstempPath (thumbnailTempStem jobId u2) r2 ".jpg"),
        Ev.projUpdate p "ready", Ev.commit,
        Ev.enqueue (some p) "transcription" JobStatus.queued
          [("projectId", p), ("sourceObjectKey", k), ("sourceBucket", b)],
        Ev.commit,
        Ev.fsUnlink (mkstempPath (videoTempStem jobId u1) r1 ".mp4"),
        Ev.fsUnlink (mkstempPath (thumbnailTempStem jobId u2) r2 ".jpg")] ∧
    ((handle_thumbnail jobId (some p)
        [("sourceObjectKey", k), ("sourceBucket", b), ("userId", uid)]
        u1 r1 u2 r2 ⟨false, false, false, false⟩ (fun _ => true) []).events.filter
      isEnqueueEv) =
      [Ev.enqueue (some p) "transcription" JobStatus.queued
        [("projectId", p), ("sourceObjectKey", k), ("sourceBucket", b)]] ∧
    (handle_transcription jobId (some p)
        [("sourceObjectKey", k), ("sourceBucket", b)] u3 r3 tid
        ⟨false, false⟩ (fun _ => true) []).events =
      [Ev.projUpdate p "transcribing", Ev.commit,
        Ev.fsCreate (mkstempPath (videoTempStem jobId u3) r3 ".mp4"),
        Ev.insertTranscriptionRow tid p, Ev.projUpdate p "completed", Ev.commit,
        Ev.enqueue (some p) "analysis" JobStatus.queued [("projectId", p)],
        Ev.commit,
        Ev.fsUnlink (mkstempPath (videoTempStem jobId u3) r3 ".mp4")] ∧
    ((handle_transcription jobId (some p)
        [("sourceObjectKey", k), ("sourceBucket", b)] u3 r3 tid
        ⟨false, false⟩ (fun _ => true) []).events.filter isEnqueueEv) =
      [Ev.enqueue (some p) "analysis" JobStatus.queued [("projectId", p)]] := by
  refine ⟨?_, ?_, ?_, ?_⟩ <;>
    simp [handle_thumbnail, handle_transcription, pyGet, truthy, hk, hb, huid,
      fsRemove, isEnqueueEv]

/-- C6 (witness): the thumbnail chaining trace at concrete inputs. -/
theorem claim6_chaining_wit :
    (handle_thumbnail "J6" (some "P")
        [("sourceObjectKey", "vid.mp4"), ("sourceBucket", "bkt"), ("userId", "U")]
        "x1" "y1" "x2" "y2" ⟨false, false, false, false⟩ (fun _ => true) []).events =
      [Ev.projUpdate "P" "processing", Ev.commit,
        Ev.fsCreate (mkstempPath (videoTempStem "J6" "x1") "y1" ".mp4"),
        Ev.fsCreate (mkstempPath (thumbnailTempStem "J6" "x2") "y2" ".jpg"),
        Ev.projUpdate "P" "ready", Ev.commit,
        Ev.enqueue (some "P") "transcription" JobStatus.queued
          [("projectId", "P"), ("sourceObjectKey", "vid.mp4"),
            ("sourceBucket", "bkt")],
        Ev.commit,
        Ev.fsUnlink (mkstempPath (videoTempStem "J6" "x1") "y1" ".mp4"),
        Ev.fsUnlink (mkstempPath (thumbnailTempStem "J6" "x2") "y2" ".jpg")] :=
  (claim6_chaining "J6" "P" "vid.mp4" "bkt" "U" "x1" "y1" "x2" "y2" "x3" "y3"
    "T" (by decide) (by decide) (by decide)).1

/-- C8: for all `h ≤ 23`, `m ≤ 59`, `s ≤ 59`, `ms ≤ 999`, parsing the
zero-padded timestamp `HH:MM:SS,mmm` yields exactly
`3600h + 60m + s + ms/1000` (exact equality in ℚ, hence well within the
claimed one-microsecond tolerance); the parser accepts a period as the
millisecond separator and the `MM:SS` form as well. -/
theorem claim8_parse (h m s ms : Nat) (hh : h ≤ 23) (hm : m ≤ 59)
    (hs : s ≤ 59) (hms : ms ≤ 999) :
    parse_timestamp
        (pad2 h ++ [':'] ++ pad2 m ++ [':'] ++ pad2 s ++ [','] ++ pad3 ms) =
      Except.ok ((3600 * h + 60 * m + s : ℚ) + (ms : ℚ) / 1000) ∧
    parse_timestamp
        (pad2 h ++ [':'] ++ pad2 m ++ [':'] ++ pad2 s ++ ['.'] ++ pad3 ms) =
      Except.ok ((3600 * h + 60 * m + s : ℚ) + (ms : ℚ) / 1000) ∧
    parse_timestamp (pad2 m ++ [':'] ++ pad2 s ++ [','] ++ pad3 ms) =
      Except.ok ((60 * m + s : ℚ) + (ms : ℚ) / 1000) ∧
    parse_timestamp (pad2 m ++ [':'] ++ pad2 s ++ ['.'] ++ pad3 ms) =
      Except.ok ((60 * m + s : ℚ) + (ms : ℚ) / 1000) := by
  have e1 : 10 * (h / 10) + h % 10 = h := by omega
  have e2 : 10 * (m / 10) + m % 10 = m := by omega
  have e3 : 10 * (s / 10) + s % 10 = s := by omega
  have e4 : 100 * (ms / 100) + 10 * (ms / 10 % 10) + ms % 10 = ms := by omega
  have b1 : h / 10 ≤ 9 := by omega
  have b2 : h % 10 ≤ 9 := by omega
  have b3 : m / 10 ≤ 9 := by omega
  have b4 : m % 10 ≤ 9 := by omega
  have b5 : s / 10 ≤ 9 := by omega
  have b6 : s % 10 ≤ 9 := by omega
  have b7 : ms / 100 ≤ 9 := by omega
  have b8 : ms / 10 % 10 ≤ 9 := by omega
  have b9 : ms % 10 ≤ 9 := by omega
  refine ⟨?_, ?_, ?_, ?_⟩
  · have base := parse_hms_digits (h / 10) (h % 10) (m / 10) (m % 10) (s / 10)
      (s % 10) (ms / 100) (ms / 10 % 10) (ms % 10) ',' b1 b2 b3 b4 b5 b6 b7 b8
      b9 (Or.inl rfl)
    rw [e1, e2, e3, e4] at base
    simpa [pad2, pad3] using base.trans (by push_cast; ring_nf)
  · have base := parse_hms_digits (h / 10) (h % 10) (m / 10) (m % 10) (s / 10)
      (s % 10) (ms / 100) (ms / 10 % 10) (ms % 10) '.' b1 b2 b3 b4 b5 b6 b7 b8
      b9 (Or.inr rfl)
    rw [e1, e2, e3, e4] at base
    simpa [pad2, pad3] using base.trans (by push_cast; ring_nf)
  · have base := parse_ms_digits (m / 10) (m % 10) (s / 10) (s % 10) (ms / 100)
      (ms / 10 % 10) (ms % 10) ',' b3 b4 b5 b6 b7 b8 b9 (Or.inl rfl)
    rw [e2, e3, e4] at base
    simpa [pad2, pad3] using base.trans (by push_cast; ring_nf)
  · have base := parse_ms_digits (m / 10) (m % 10) (s / 10) (s % 10) (ms / 100)
      (ms / 10 % 10) (ms % 10) '.' b3 b4 b5 b6 b7 b8 b9 (Or.inr rfl)
    rw [e2, e3, e4] at base
    simpa [pad2, pad3] using base.trans (by push_cast; ring_nf)

/-- C8 (witness): the parser theorem at `00:01:23,456`, the docstring's own
example. -/
theorem claim8_parse_wit :
    parse_timestamp
        (pad2 0 ++ [':'] ++ pad2 1 ++ [':'] ++ pad2 23 ++ [','] ++ pad3 456) =
      Except.ok
        ((3600 * ((0 : ℕ) : ℚ) + 60 * ((1 : ℕ) : ℚ) + ((23 : ℕ) : ℚ)) +
          ((456 : ℕ) : ℚ) / 1000) ∧
    parse_timestamp
        (pad2 0 ++ [':'] ++ pad2 1 ++ [':'] ++ pad2 23 ++ ['.'] ++ pad3 456) =
      Except.ok
        ((3600 * ((0 : ℕ) : ℚ) + 60 * ((1 : ℕ) : ℚ) + ((23 : ℕ) : ℚ)) +
          ((456 : ℕ) : ℚ) / 1000) ∧
    parse_timestamp (pad2 1 ++ [':'] ++ pad2 23 ++ [','] ++ pad3 456) =
      Except.ok
        ((60 * ((1 : ℕ) : ℚ) + ((23 : ℕ) : ℚ)) + ((456 : ℕ) : ℚ) / 1000) ∧
    parse_timestamp (pad2 1 ++ [':'] ++ pad2 23 ++ ['.'] ++ pad3 456) =
      Except.ok
        ((60 * ((1 : ℕ) : ℚ) + ((23 : ℕ) : ℚ)) + ((456 : ℕ) : ℚ) / 1000) :=
  claim8_parse 0 1 23 456 (by decide) (by decide) (by decide) (by decide)

/-- C9: the claim asserts every temp path includes the job id and a random
component.  Counterexample: in a concrete analysis run for job `J9`, the
handler creates the per-clip temp file `clip-abc123-xx.mp4` (stem
`f"clip-{short_id}-"`, processor.py line 559), and that path does not contain
the job id `J9` as a substring. -/
theorem claim9_cex :
    Ev.fsCreate (mkstempPath (clipTempStem "abc123") "xx" ".mp4") ∈
      (handle_analysis "J9" (some "P") true true 1 [("abc123", "xx", "yy")]
        (fun _ => false) "uu" "zz" false (fun _ => true) []).events ∧
    strContains (mkstempPath (clipTempStem "abc123") "xx" ".mp4").data
      "J9".data = false :=
  ⟨by decide, by decide⟩

theorem thumb_fs_clean (jobId u1 r1 u2 r2 : String) (projectId : Option String)
    (payload : List (String × String)) (tf : ThumbFails) (fs : List String)
    (hv : mkstempPath (videoTempStem jobId u1) r1 ".mp4" ∉ fs)
    (ht : mkstempPath (thumbnailTempStem jobId u2) r2 ".jpg" ∉ fs) :
    (handle_thumbnail jobId projectId payload u1 r1 u2 r2 tf
      (fun _ => true) fs).fs = fs := by
  cases projectId with
  | none => rfl
  | some p =>
      by_cases hc : truthy (pyGet payload "sourceObjectKey") ∧
          truthy (pyGet payload "sourceBucket") ∧ truthy (pyGet payload "userId")
      · simp only [handle_thumbnail, hc, not_true_eq_false, if_false]
        exact fsRemove_two_fresh fs _ _ hv ht
      · simp [handle_thumbnail, hc]

theorem thumb_outcome_unlink (jobId u1 r1 u2 r2 : String)
    (projectId : Option String) (payload : List (String × String))
    (tf : ThumbFails) (unlinkOk : String → Bool) (fs : List String) :
    (handle_thumbnail jobId projectId payload u1 r1 u2 r2 tf unlinkOk fs).outcome =
      (handle_thumbnail jobId projectId payload u1 r1 u2 r2 tf
        (fun _ => true) fs).outcome := by
  cases projectId with
  | none => rfl
  | some p =>
      by_cases hc : truthy (pyGet payload "sourceObjectKey") ∧
          truthy (pyGet payload "sourceBucket") ∧ truthy (pyGet payload "userId")
      · simp [handle_thumbnail, hc]
      · simp [handle_thumbnail, hc]

theorem trans_fs_clean (jobId u r tid : String) (projectId : Option String)
    (payload : List (String × String)) (sf : TransFails) (fs : List String)
    (hv : mkstempPath (videoTempStem jobId u) r ".mp4" ∉ fs) :
    (handle_transcription jobId projectId payload u r tid sf
      (fun _ => true) fs).fs = fs := by
  cases projectId with
  | none => rfl
  | some p =>
      by_cases hc : truthy (pyGet payload "sourceObjectKey") ∧
          truthy (pyGet payload "sourceBucket")
      · simp only [handle_transcription, hc, not_true_eq_false, if_false]
        simp [fsRemove_one_fresh fs _ hv]
      · simp [handle_transcription, hc]

theorem trans_outcome_unlink (jobId u r tid : String)
    (projectId : Option String) (payload : List (String × String))
    (sf : TransFails) (unlinkOk : String → Bool) (fs : List String) :
    (handle_transcription jobId projectId payload u r tid sf unlinkOk fs).outcome =
      (handle_transcription jobId projectId payload u r tid sf
        (fun _ => true) fs).outcome := by
  cases projectId with
  | none => rfl
  | some p =>
      by_cases hc : truthy (pyGet payload "sourceObjectKey") ∧
          truthy (pyGet payload "sourceBucket")
      · simp [handle_transcription, hc]
      · simp [handle_transcription, hc]

theorem analysis_fs_clean (jobId u r : String) (projectId : Option String)
    (hasProject hasTranscription : Bool) (numSegments : Nat)
    (clips : List (String × String × String)) (clipFails : Nat → Bool)
    (downloadFails : Bool) (fs : List String)
    (hA : ∀ q ∈ analysisTempPaths jobId u r clips, q ∉ fs)
    (hAnd : (analysisTempPaths jobId u r clips).Nodup) :
    (handle_analysis jobId projectId hasProject hasTranscription numSegments
      clips clipFails u r downloadFails (fun _ => true) fs).fs = fs := by
  cases projectId with
  | none => rfl
  | some p =>
      have hsp : mkstempPath (sourceTempStem jobId u) r ".mp4" ∉ fs :=
        hA _ (by simp [analysisTempPaths])
      cases hasProject with
      | false => simp [handle_analysis]
      | true =>
          cases hasTranscription with
          | false => simp [handle_analysis]
          | true =>
              by_cases hn : numSegments = 0
              · simp [handle_analysis, hn]
              · cases downloadFails with
                | true =>
                    simp [handle_analysis, hn, fsRemove_one_fresh fs _ hsp]
                | false =>
                    cases clips with
                    | nil =>
                        simp [handle_analysis, hn, clipLoop,
                          fsRemove_one_fresh fs _ hsp]
                    | cons head rest =>
                        obtain ⟨sid, r1, r2⟩ := head
                        have hcm :
                            mkstempPath (clipTempStem sid) r1 ".mp4" ∈
                              analysisTempPaths jobId u r
                                ((sid, r1, r2) :: rest) := by
                          simp [analysisTempPaths, clipTempPathsList]
                        have htm :
                            mkstempPath (clipThumbTempStem sid) r2 ".jpg" ∈
                              analysisTempPaths jobId u r
                                ((sid, r1, r2) :: rest) := by
                          simp [analysisTempPaths, clipTempPathsList]
                        have hcfs := hA _ hcm
                        have htfs := hA _ htm
                        have hnd := hAnd
                        simp only [analysisTempPaths, clipTempPathsList,
                          List.nodup_cons, List.mem_cons] at hnd
                        have hspc :
                            mkstempPath (clipTempStem sid) r1 ".mp4" ≠
                              mkstempPath (sourceTempStem jobId u) r ".mp4" := by
                          intro hq
                          exact hnd.1 (Or.inl hq.symm)
                        have hspt :
                            mkstempPath (clipThumbTempStem sid) r2 ".jpg" ≠
                              mkstempPath (sourceTempStem jobId u) r ".mp4" := by
                          intro hq
                          exact hnd.1 (Or.inr (Or.inl hq.symm))
                        have hc0 :
                            mkstempPath (clipTempStem sid) r1 ".mp4" ∉
                              fs ++ [mkstempPath (sourceTempStem jobId u) r ".mp4"] := by
                          simp [List.mem_append, hcfs, hspc]
                        have ht0 :
                            mkstempPath (clipThumbTempStem sid) r2 ".jpg" ∉
                              fs ++ [mkstempPath (sourceTempStem jobId u) r ".mp4"] := by
                          simp [List.mem_append, htfs, hspt]
                        have hclean :=
                          fsRemove_two_fresh
                            (fs ++ [mkstempPath (sourceTempStem jobId u) r ".mp4"])
                            _ _ hc0 ht0
                        simp only [List.append_assoc, List.cons_append,
                          List.nil_append] at hclean
                        cases hcf : clipFails 0 with
                        | true =>
                            simp [handle_analysis, hn, clipLoop, processClip,
                              hcf, checkShortKwargs, shortKwargKeysOk,
                              shortKwargKeysErr, shortMappedAttrs, hclean,
                              fsRemove_one_fresh fs _ hsp]
                        | false =>
                            simp [handle_analysis, hn, clipLoop, processClip,
                              hcf, checkShortKwargs, shortKwargKeysOk,
                              shortKwargKeysErr, shortMappedAttrs, hclean,
                              fsRemove_one_fresh fs _ hsp]

theorem analysis_outcome_unlink (jobId u r : String) (projectId : Option String)
    (hasProject hasTranscription : Bool) (numSegments : Nat)
    (clips : List (String × String × String)) (clipFails : Nat → Bool)
    (downloadFails : Bool) (unlinkOk : String → Bool) (fs : List String) :
    (handle_analysis jobId projectId hasProject hasTranscription numSegments
        clips clipFails u r downloadFails unlinkOk fs).outcome =
      (handle_analysis jobId projectId hasProject hasTranscription numSegments
        clips clipFails u r downloadFails (fun _ => true) fs).outcome := by
  cases projectId with
  | none => rfl
  | some p =>
      cases hasProject with
      | false => simp [handle_analysis]
      | true =>
          cases hasTranscription with
          | false => simp [handle_analysis]
          | true =>
              by_cases hn : numSegments = 0
              · simp [handle_analysis, hn]
              · cases downloadFails with
                | true => simp [handle_analysis, hn]
                | false =>
                    cases clips with
                    | nil => simp [handle_analysis, hn, clipLoop]
                    | cons head rest =>
                        obtain ⟨sid, r1, r2⟩ := head
                        cases hcf : clipFails 0 with
                        | true =>
                            simp [handle_analysis, hn, clipLoop, processClip,
                              hcf, checkShortKwargs, shortKwargKeysOk,
                              shortKwargKeysErr, shortMappedAttrs]
                        | false =>
                            simp [handle_analysis, hn, clipLoop, processClip,
                              hcf, checkShortKwargs, shortKwargKeysOk,
                              shortKwargKeysErr, shortMappedAttrs]

/-- C9 (amended): after any handler run — success or an exception at any
collaborator step — every temporary file the handler created has been removed
again, provided the unlink calls succeed (freshness of the `mkstemp` paths is
the stated hypothesis); and a failing unlink is swallowed: it never changes
the handler's outcome.  The path-composition part of the original claim is
amended: the video/thumbnail/source temp stems include the job id and a
random component, but the per-clip stems (`clip-{short_id}-`,
`thumb-{short_id}-`) include only the short's random id. -/
theorem claim9_amended (jobId u1 r1 u2 r2 u3 r3 tid u4 r4 : String)
    (projectId : Option String) (payload payload2 : List (String × String))
    (tf : ThumbFails) (sf : TransFails)
    (hasProject hasTranscription : Bool) (numSegments : Nat)
    (clips : List (String × String × String)) (clipFails : Nat → Bool)
    (downloadFails : Bool) (unlinkOk : String → Bool) (fs : List String)
    (hv : mkstempPath (videoTempStem jobId u1) r1 ".mp4" ∉ fs)
    (ht : mkstempPath (thumbnailTempStem jobId u2) r2 ".jpg" ∉ fs)
    (hv2 : mkstempPath (videoTempStem jobId u3) r3 ".mp4" ∉ fs)
    (hA : ∀ q ∈ analysisTempPaths jobId u4 r4 clips, q ∉ fs)
    (hAnd : (analysisTempPaths jobId u4 r4 clips).Nodup) :
    (handle_thumbnail jobId projectId payload u1 r1 u2 r2 tf
      (fun _ => true) fs).fs = fs ∧
    (handle_transcription jobId projectId payload2 u3 r3 tid sf
      (fun _ => true) fs).fs = fs ∧
    (handle_analysis jobId projectId hasProject hasTranscription numSegments
      clips clipFails u4 r4 downloadFails (fun _ => true) fs).fs = fs ∧
    (handle_thumbnail jobId projectId payload u1 r1 u2 r2 tf
        unlinkOk fs).outcome =
      (handle_thumbnail jobId projectId payload u1 r1 u2 r2 tf
        (fun _ => true) fs).outcome ∧
    (handle_transcription jobId projectId payload2 u3 r3 tid sf
        unlinkOk fs).outcome =
      (handle_transcription jobId projectId payload2 u3 r3 tid sf
        (fun _ => true) fs).outcome ∧
    (handle_analysis jobId projectId hasProject hasTranscription numSegments
        clips clipFails u4 r4 downloadFails unlinkOk fs).outcome =
      (handle_analysis jobId projectId hasProject hasTranscription numSegments
        clips clipFails u4 r4 downloadFails (fun _ => true) fs).outcome :=
  ⟨thumb_fs_clean jobId u1 r1 u2 r2 projectId payload tf fs hv ht,
    trans_fs_clean jobId u3 r3 tid projectId payload2 sf fs hv2,
    analysis_fs_clean jobId u4 r4 projectId hasProject hasTranscription
      numSegments clips clipFails downloadFails fs hA hAnd,
    thumb_outcome_unlink jobId u1 r1 u2 r2 projectId payload tf unlinkOk fs,
    trans_outcome_unlink jobId u3 r3 tid projectId payload2 sf unlinkOk fs,
    analysis_outcome_unlink jobId u4 r4 projectId hasProject hasTranscription
      numSegments clips clipFails downloadFails unlinkOk fs⟩

/-- C9 (amended, witness): the cleanup theorem at concrete inputs, with an
always-failing unlink on the outcome side. -/
theorem claim9_amended_wit :
    (handle_thumbnail "W" (some "P") [] "a" "b" "c" "d"
      ⟨false, false, false, false⟩ (fun _ => true) []).fs = [] ∧
    (handle_transcription "W" (some "P") [] "e" "f" "T" ⟨false, false⟩
      (fun _ => true) []).fs = [] ∧
    (handle_analysis "W" (some "P") true true 1 [("SC", "q1", "q2")]
      (fun _ => false) "g" "i" false (fun _ => true) []).fs = [] ∧
    (handle_thumbnail "W" (some "P") [] "a" "b" "c" "d"
        ⟨false, false, false, false⟩ (fun _ => false) []).outcome =
      (handle_thumbnail "W" (some "P") [] "a" "b" "c" "d"
        ⟨false, false, false, false⟩ (fun _ => true) []).outcome ∧
    (handle_transcription "W" (some "P") [] "e" "f" "T" ⟨false, false⟩
        (fun _ => false) []).outcome =
      (handle_transcription "W" (some "P") [] "e" "f" "T" ⟨false, false⟩
        (fun _ => true) []).outcome ∧
    (handle_analysis "W" (some "P") true true 1 [("SC", "q1", "q2")]
        (fun _ => false) "g" "i" false (fun _ => false) []).outcome =
      (handle_analysis "W" (some "P") true true 1 [("SC", "q1", "q2")]
        (fun _ => false) "g" "i" false (fun _ => true) []).outcome :=
  claim9_amended "W" "a" "b" "c" "d" "e" "f" "T" "g" "i" (some "P") [] []
    ⟨false, false, false, false⟩ ⟨false, false⟩ true true 1
    [("SC", "q1", "q2")] (fun _ => false) false (fun _ => false) []
    (by simp) (by simp) (by simp) (by simp) (by decide)

end Videditor
